import Mathlib

/-!
Shallow embedding of the OpenDKIM charm (`src/charm.py`) reconciliation
logic, and proofs checking the repository's specification claims against it.

Conventions of the embedding:
* Pure Python helpers become Lean functions over `String` / `List`.
* `charm.config` is a partial map `String → Option String`; YAML parsing
  (`yaml.safe_load`, an external library) is a collaborator function
  `String → Option Yaml` where `none` models a raised `yaml.YAMLError`.
* The secret store is a collaborator `String → Option (List (String × String))`
  (`none` models `ops.SecretNotFoundError`); a Python dict is an association
  list whose keys are distinct, in insertion order.
* Side effects of one reconciliation cycle (`render_file`, relation data
  writes, systemd restart/reload) are recorded as an ordered event list.
* Python exceptions are values carrying their class; the class hierarchy of
  the classes that matter here is embedded explicitly so that `except`
  clauses can be modelled as `isinstance` tests.
-/

namespace OpenDKIMCharm

/-! ## Python exception classes relevant to `charm.py`

Hierarchy as documented by CPython:
`TimeoutError <: OSError <: Exception`,
`subprocess.TimeoutExpired <: subprocess.SubprocessError <: Exception`,
`subprocess.CalledProcessError <: subprocess.SubprocessError <: Exception`,
`ValueError <: Exception`, `ops.SecretNotFoundError <: ops.ModelError <: Exception`. -/

inductive PyClass where
  | baseException
  | exception
  | osError
  | timeoutError
  | subprocessError
  | calledProcessError
  | timeoutExpired
  | valueError
  | modelError
  | secretNotFoundError
deriving DecidableEq, Repr

/-- The chain of superclasses (the class itself included) of each class. -/
def PyClass.ancestors : PyClass → List PyClass
  | .baseException => [.baseException]
  | .exception => [.exception, .baseException]
  | .osError => [.osError, .exception, .baseException]
  | .timeoutError => [.timeoutError, .osError, .exception, .baseException]
  | .subprocessError => [.subprocessError, .exception, .baseException]
  | .calledProcessError => [.calledProcessError, .subprocessError, .exception, .baseException]
  | .timeoutExpired => [.timeoutExpired, .subprocessError, .exception, .baseException]
  | .valueError => [.valueError, .exception, .baseException]
  | .modelError => [.modelError, .exception, .baseException]
  | .secretNotFoundError => [.secretNotFoundError, .modelError, .exception, .baseException]

/-- A raised Python exception: its class and its message. -/
structure PyExc where
  cls : PyClass
  msg : String
deriving DecidableEq, Repr

/-- `isinstance(e, c)`: the class of `e` is `c` or a subclass of `c`. -/
def isinstance (e : PyExc) (c : PyClass) : Bool :=
  e.cls.ancestors.contains c

/-! ## Constants from the top of `charm.py` -/

def OPENDKIM_MILTER_PORT : Nat := 8892
def OPENDKIM_CONFIG_PATH : String := "/etc/opendkim.conf"
def OPENDKIM_KEYS_PATH : String := "/etc/dkimkeys"
def OPENDKIM_SIGNINGTABLE_PATH : String := OPENDKIM_KEYS_PATH ++ "/signingtable"
def OPENDKIM_KEYTABLE_PATH : String := OPENDKIM_KEYS_PATH ++ "/keytable"
def OPENDKIM_USER : String := "opendkim"

def DEFAULT_SIGN_HEADERS : String :=
  "From,Reply-To,Subject,Date,To,Cc,Resent-From,Resent-Date,Resent-To,Resent-Cc,In-Reply-To,References,MIME-Version,Message-ID,Content-Type"

/-- `OPENDKIM_KEYS_PATH / f"{keyname}.private"` (line 111 of `charm.py`). -/
def keyfile (keyname : String) : String :=
  OPENDKIM_KEYS_PATH ++ "/" ++ keyname ++ ".private"

/-! ## Python string primitives used by the source -/

/-- Python `sep.join(parts)`. -/
def pyJoin (sep : String) : List String → String
  | [] => ""
  | [x] => x
  | x :: xs => x ++ sep ++ pyJoin sep xs

/-- The character list of the literal `"secret:"`. -/
def SECRET_TOKEN : List Char := ['s', 'e', 'c', 'r', 'e', 't', ':']

/-- `pat` occurs at the head of `l` (Python `str.startswith` at a position). -/
def leadsWith : List Char → List Char → Bool
  | [], _ => true
  | _ :: _, [] => false
  | p :: ps, c :: cs => p == c && leadsWith ps cs

/-- CPython `str.replace(old, "")` scans left to right and deletes each
non-overlapping occurrence of `old`.  Specialised to `old = "secret:"`
(the only call in the source, `charm.py` line 206).  The fuel argument is
the length of the scanned list; each step consumes at least one character,
so the fuel never runs out when initialised with the list length. -/
def dropSecretFuel : Nat → List Char → List Char
  | 0, l => l
  | _ + 1, [] => []
  | fuel + 1, c :: cs =>
    if leadsWith SECRET_TOKEN (c :: cs) then
      dropSecretFuel fuel (List.drop 6 cs)
    else
      c :: dropSecretFuel fuel cs

/-- `s.replace("secret:", "")` from `charm.py` line 206. -/
def pyReplaceSecret (s : String) : String :=
  String.mk (dropSecretFuel s.data.length s.data)

/-! ## YAML values and the pydantic model -/

/-- Result of a successful `yaml.safe_load`: only the shapes the pydantic
model distinguishes matter, every other value (mappings, numbers, booleans,
`None`, ...) is collapsed into `other`. -/
inductive Yaml where
  | str (s : String)
  | list (items : List Yaml)
  | other

/-- The pydantic `OpenDKIMConfig` model of `charm.py` lines 141-167.
`signingtable_path` and `keytable_path` are `pathlib.Path` values in the
source; paths are embedded as strings. -/
structure OpenDKIMConfig where
  canonicalization : String := "relaxed/relaxed"
  socket : String := "inet:" ++ toString OPENDKIM_MILTER_PORT
  signheaders : String := DEFAULT_SIGN_HEADERS
  internalhosts : String := "0.0.0.0/0"
  mode : String := "sv"
  signingtable : List (String × String)
  keytable : List (List String)
  private_keys : List (String × String)
  signingtable_path : String := OPENDKIM_SIGNINGTABLE_PATH
  keytable_path : String := OPENDKIM_KEYTABLE_PATH
deriving DecidableEq, Repr

/-- Computed field `signing_mode`: Python `"s" in self.mode` (substring
containment, which for the one-character needle is character membership). -/
def OpenDKIMConfig.signing_mode (c : OpenDKIMConfig) : Bool :=
  c.mode.contains 's'

/-- Pydantic coercion of a YAML value into `str`. -/
def coerceStr : Yaml → Option String
  | .str s => some s
  | _ => none

/-- Pydantic coercion of a YAML value into `Tuple[str, str]`:
a two-element sequence of strings. -/
def coercePair : Yaml → Option (String × String)
  | .list [a, b] =>
    match coerceStr a, coerceStr b with
    | some x, some y => some (x, y)
    | _, _ => none
  | _ => none

/-- Pydantic coercion into `list[Tuple[str, str]]` (field `signingtable`). -/
def coerceSigningtable : Yaml → Option (List (String × String))
  | .list items => items.mapM coercePair
  | _ => none

/-- Pydantic coercion into `list[str]`. -/
def coerceStrList : Yaml → Option (List String)
  | .list items => items.mapM coerceStr
  | _ => none

/-- Pydantic coercion into `list[list[str]]` (field `keytable`). -/
def coerceKeytable : Yaml → Option (List (List String))
  | .list items => items.mapM coerceStrList
  | _ => none

/-- `OpenDKIMConfig(signingtable=…, keytable=…, private_keys=…)`:
pydantic validates the fields in declaration order and reports the failing
field locations (sub-locations of element-level failures are collapsed to
the field name; the claims checked here do not depend on their spelling).
`private_keys` arrives as `dict[str, str]` from the secret store and needs
no coercion.  On failure the error lists the invalid fields, which
`get_invalid_config_fields` turns into strings. -/
def pydantic_validate (st kt : Yaml) (pk : List (String × String)) :
    Except (List String) OpenDKIMConfig :=
  match coerceSigningtable st, coerceKeytable kt with
  | some s, some k => .ok { signingtable := s, keytable := k, private_keys := pk }
  | none, some _ => .error ["signingtable"]
  | some _, none => .error ["keytable"]
  | none, none => .error ["signingtable", "keytable"]

/-! ## `_parse_yaml_config_option` and `OpenDKIMConfig.from_charm` -/

/-- `_parse_yaml_config_option` (`charm.py` lines 218-227):
`config_data.get(name)` is `none` when absent; `if not config_value`
is true for `None` and for the empty string; only then is the YAML
parser invoked, a parse failure becoming `wrong <name> format`. -/
def _parse_yaml_config_option (parse : String → Option Yaml)
    (config_data : String → Option String) (config_name : String) :
    Except String Yaml :=
  match config_data config_name with
  | none => .error ("empty " ++ config_name ++ " configuration")
  | some v =>
    if v = "" then .error ("empty " ++ config_name ++ " configuration")
    else
      match parse v with
      | some y => .ok y
      | none => .error ("wrong " ++ config_name ++ " format")

/-- The one-element error list contributed by a `try/except` around a parse
call (`errors.append(str(e))`). -/
def errList : Except String Yaml → List String
  | .error e => [e]
  | .ok _ => []

/-- Python truthiness of an `Optional[str]`. -/
def truthyStrOpt : Option String → Bool
  | none => false
  | some s => !(s == "")

/-- The accumulated `errors` list of `from_charm` (`charm.py` lines 188-202):
signingtable parse error, then keytable parse error, then the missing
secret-reference error. -/
def configErrors (parse : String → Option Yaml)
    (config : String → Option String) : List String :=
  errList (_parse_yaml_config_option parse config "signingtable")
    ++ errList (_parse_yaml_config_option parse config "keytable")
    ++ (if truthyStrOpt (config "private-keys") then []
        else ["empty private-keys configuration"])

/-- Errors raised out of `OpenDKIMConfig.from_charm`:
`InvalidCharmConfigError` (caught by `_reconcile`) or the
`ops.SecretNotFoundError` that `model.get_secret` raises for an
unresolvable identifier (not caught anywhere in `charm.py`). -/
inductive FromCharmError where
  | invalid (msg : String)
  | secretNotFound (sid : String)
deriving DecidableEq, Repr

/-- `OpenDKIMConfig.from_charm` (`charm.py` lines 175-215).  When any of the
three field checks failed, the accumulated errors are joined with `" - "`;
otherwise every `"secret:"` occurrence is removed from the reference, the
secret is resolved, and the pydantic model is constructed. -/
def from_charm (parse : String → Option Yaml) (config : String → Option String)
    (getSecret : String → Option (List (String × String))) :
    Except FromCharmError OpenDKIMConfig :=
  match _parse_yaml_config_option parse config "signingtable",
        _parse_yaml_config_option parse config "keytable",
        config "private-keys" with
  | .ok st, .ok kt, some pkid =>
    if pkid = "" then
      .error (.invalid (pyJoin " - " (configErrors parse config)))
    else
      match getSecret (pyReplaceSecret pkid) with
      | none => .error (.secretNotFound (pyReplaceSecret pkid))
      | some pk =>
        match pydantic_validate st kt pk with
        | .ok cfg => .ok cfg
        | .error fields =>
          .error (.invalid ("wrong config options: " ++ pyJoin "," fields ++ "."))
  | _, _, _ => .error (.invalid (pyJoin " - " (configErrors parse config)))

/-! ## `validate_opendkim`, `read_text` and the reconcile loop -/

/-- The three ways `subprocess.run(["opendkim-testkey", ...], timeout=100,
check=True)` can end. -/
inductive RunOutcome where
  | success
  | nonzeroExit
  | timeout
deriving DecidableEq, Repr

/-- `subprocess.run` with `check=True` raises `CalledProcessError` on a
non-zero exit status and `subprocess.TimeoutExpired` when the timeout
expires (CPython documented behaviour). -/
def subprocess_run_testkey : RunOutcome → Except PyExc Unit
  | .success => .ok ()
  | .nonzeroExit =>
    .error ⟨.calledProcessError, "Command opendkim-testkey returned non-zero exit status"⟩
  | .timeout =>
    .error ⟨.timeoutExpired, "Command opendkim-testkey timed out after 100 seconds"⟩

/-- `validate_opendkim` (`charm.py` lines 230-242): the `except` clause
names the classes `(subprocess.CalledProcessError, TimeoutError)`; an
exception is converted to `ValueError` exactly when it is an instance of
one of them, and propagates unchanged otherwise. -/
def validate_opendkim (outcome : RunOutcome) : Except PyExc Unit :=
  match subprocess_run_testkey outcome with
  | .ok _ => .ok ()
  | .error e =>
    if isinstance e .calledProcessError || isinstance e .timeoutError then
      .error ⟨.valueError, "Wrong opendkim configuration. See logs"⟩
    else
      .error e

/-- `read_text` (`charm.py` lines 245-256): a present file yields its
content, `FileNotFoundError` for an absent file is caught and yields `""`. -/
def read_text (fs : String → Option String) (path : String) : String :=
  match fs path with
  | some content => content
  | none => ""

/-- One artifact written by `render_file`: path, content, `chmod` mode and
owning user (`charm.py` lines 259-272). -/
structure Artifact where
  path : String
  content : String
  mode : Nat
  user : String
deriving DecidableEq, Repr

/-- An observable side effect of one reconciliation cycle, in order. -/
inductive Event where
  | write (a : Artifact)
  | restart (service : String)
  | reload (service : String)
  | relationSet (key : String) (value : String)
deriving DecidableEq, Repr

/-- Unit status at the end of the cycle. -/
inductive UnitStatus where
  | active
  | blocked (msg : String)
deriving DecidableEq, Repr

/-- How the cycle terminates: a status was set, or an exception escaped
`_reconcile` (the hook crashes). -/
inductive ReconcileResult where
  | status (s : UnitStatus)
  | crash (e : PyExc)
deriving DecidableEq, Repr

/-- Inputs of one `_reconcile` invocation: the charm config, the YAML
parser, the secret store, the number of milter relation instances, the
filesystem contents before the cycle, the Jinja template (an external
collaborator: a deterministic function of the model dump) and the outcome
of the `opendkim-testkey` run. -/
structure ReconcileInput where
  parse : String → Option Yaml
  config : String → Option String
  getSecret : String → Option (List (String × String))
  milterRelations : Nat
  fs : String → Option String
  template : OpenDKIMConfig → String
  testkey : RunOutcome

/-- The ordered side effects of the apply phase of `_reconcile`
(`charm.py` lines 98-130): relation data, key files, signing table, key
table, then - only when the rendered primary config differs from the
previously persisted content - the primary config write plus restart,
then always a reload. -/
def appliedEvents (inp : ReconcileInput) (cfg : OpenDKIMConfig) : List Event :=
  List.replicate inp.milterRelations
      (Event.relationSet "port" (toString OPENDKIM_MILTER_PORT))
    ++ cfg.private_keys.map
      (fun kv => Event.write ⟨keyfile kv.1, kv.2, 0o600, OPENDKIM_USER⟩)
    ++ [Event.write ⟨OPENDKIM_SIGNINGTABLE_PATH,
          pyJoin "\n" (cfg.signingtable.map (fun row => pyJoin " " [row.1, row.2])),
          0o644, OPENDKIM_USER⟩,
        Event.write ⟨OPENDKIM_KEYTABLE_PATH,
          pyJoin "\n" (cfg.keytable.map (fun row => pyJoin " " row)),
          0o644, OPENDKIM_USER⟩]
    ++ (if inp.template cfg = read_text inp.fs OPENDKIM_CONFIG_PATH then []
        else [Event.write ⟨OPENDKIM_CONFIG_PATH, inp.template cfg, 0o644, OPENDKIM_USER⟩,
              Event.restart "opendkim"])
    ++ [Event.reload "opendkim"]

/-- Result of one cycle: the events that happened and how it ended. -/
structure ReconcileOutput where
  events : List Event
  result : ReconcileResult
deriving DecidableEq, Repr

/-- `_reconcile` (`charm.py` lines 85-138): validate the config
(`InvalidCharmConfigError` → blocked), require at least one milter
relation (none → blocked, nothing written), apply the artifacts and the
restart/reload policy, then run `validate_opendkim` (`ValueError` →
blocked, any other escaping exception crashes the hook). -/
def reconcile (inp : ReconcileInput) : ReconcileOutput :=
  match from_charm inp.parse inp.config inp.getSecret with
  | .error (.invalid msg) => ⟨[], .status (.blocked msg)⟩
  | .error (.secretNotFound sid) =>
    ⟨[], .crash ⟨.secretNotFoundError, "Secret not found " ++ sid⟩⟩
  | .ok cfg =>
    if inp.milterRelations = 0 then
      ⟨[], .status (.blocked "Missing milter relations")⟩
    else
      let events := appliedEvents inp cfg
      match validate_opendkim inp.testkey with
      | .ok _ => ⟨events, .status .active⟩
      | .error e =>
        if isinstance e .valueError then ⟨events, .status (.blocked e.msg)⟩
        else ⟨events, .crash e⟩

/-- The write events of `events` aimed at path `p`. -/
def isWriteTo (p : String) : Event → Bool
  | .write a => a.path == p
  | _ => false

/-- All writes of the cycle landing on path `p`, in order. -/
def writesAt (p : String) (events : List Event) : List Event :=
  events.filter (isWriteTo p)

/-! ## Definitions following the specification's words

These are deliberately written from the spec sentences, to be compared
with the definitions above, which are translated from the source. -/

/-- Spec 4.2: signing-table rendering, "each entry's two fields joined by a
single space, one entry per line, in input order" - written as a direct
recursion over the entry sequence. -/
def lines_of_pairs : List (String × String) → String
  | [] => ""
  | [p] => p.1 ++ " " ++ p.2
  | p :: rest => p.1 ++ " " ++ p.2 ++ "\n" ++ lines_of_pairs rest

/-- Spec 4.2: one key-table entry, its fields joined by single spaces. -/
def row_join : List String → String
  | [] => ""
  | [x] => x
  | x :: xs => x ++ " " ++ row_join xs

/-- Spec 4.2: key-table rendering, "same join rule", one entry per line in
input order. -/
def lines_of_rows : List (List String) → String
  | [] => ""
  | [r] => row_join r
  | r :: rest => row_join r ++ "\n" ++ lines_of_rows rest

/-- Claim C9's words: the fragments of the string split on the separator
`"secret:"` (fuelled like `dropSecretFuel`; concatenating the fragments is
"the string with every `secret:` substring deleted"). -/
def splitSecretFuel : Nat → List Char → List (List Char)
  | 0, l => [l]
  | _ + 1, [] => [[]]
  | fuel + 1, c :: cs =>
    if leadsWith SECRET_TOKEN (c :: cs) then
      [] :: splitSecretFuel fuel (List.drop 6 cs)
    else
      match splitSecretFuel fuel cs with
      | [] => [[c]]
      | chunk :: rest => (c :: chunk) :: rest

/-- Claim C9's words, at the string level: delete every `"secret:"`
substring of `s` by splitting on it and concatenating the fragments. -/
def deleteAllSecretSub (s : String) : String :=
  String.mk (splitSecretFuel s.data.length s.data).flatten

/-! ## Concrete collaborator instances used to instantiate the theorems -/

/-- A YAML parser behaviour agreeing with `yaml.safe_load` on the three
concrete documents the instantiations below use (`[]` parses to the empty
sequence; `*bad` is a YAML alias error). -/
def demoParse : String → Option Yaml := fun s =>
  if s = "STYAML" then
    some (Yaml.list [Yaml.list [Yaml.str "*@example.com",
                                Yaml.str "sel._domainkey.example.com"]])
  else if s = "KTYAML" then
    some (Yaml.list [Yaml.list [Yaml.str "sel._domainkey.example.com",
                                Yaml.str "example.com:sel:/etc/dkimkeys/k1.private"]])
  else if s = "[]" then some (Yaml.list [])
  else none

/-- A charm config with valid signing table, key table and secret ref. -/
def demoConfig : String → Option String := fun name =>
  if name = "signingtable" then some "STYAML"
  else if name = "keytable" then some "KTYAML"
  else if name = "private-keys" then some "secret:xyz"
  else none

/-- A secret store resolving the identifier `xyz` to one PEM entry. -/
def demoSecret : String → Option (List (String × String)) := fun sid =>
  if sid = "xyz" then some [("k1", "PEMDATA")] else none

/-- The validated configuration `from_charm` builds from the demo inputs. -/
def demoCfg : OpenDKIMConfig :=
  { signingtable := [("*@example.com", "sel._domainkey.example.com")],
    keytable := [["sel._domainkey.example.com", "example.com:sel:/etc/dkimkeys/k1.private"]],
    private_keys := [("k1", "PEMDATA")] }

/-- A full reconcile input: valid config, one milter relation, empty
filesystem, a template collaborator, successful external validation. -/
def demoInput : ReconcileInput :=
  { parse := demoParse
    config := demoConfig
    getSecret := demoSecret
    milterRelations := 1
    fs := fun _ => none
    template := fun c => "CONF " ++ c.mode
    testkey := RunOutcome.success }

/-- The demo input with zero milter relation instances. -/
def noRelationInput : ReconcileInput :=
  { demoInput with milterRelations := 0 }

/-- The demo input whose `opendkim-testkey` run exceeds its timeout. -/
def timeoutInput : ReconcileInput :=
  { demoInput with testkey := RunOutcome.timeout }

/-- The demo input whose `opendkim-testkey` run exits non-zero. -/
def failedTestkeyInput : ReconcileInput :=
  { demoInput with testkey := RunOutcome.nonzeroExit }

/-- The demo input with a non-empty previous primary config on disk whose
content equals what the template renders for `demoCfg`. -/
def noDriftInput : ReconcileInput :=
  { demoInput with fs := fun p => if p = OPENDKIM_CONFIG_PATH then some "CONF sv" else none }

/-- A charm config whose table options are present but empty sequences
(`"[]"`), with a valid secret reference: used against claim C5. -/
def emptyTablesConfig : String → Option String := fun name =>
  if name = "signingtable" then some "[]"
  else if name = "keytable" then some "[]"
  else if name = "private-keys" then some "secret:xyz"
  else none

/-- A charm config where both table options are malformed YAML and the
secret reference is missing: used for claim C4. -/
def malformedConfig : String → Option String := fun name =>
  if name = "signingtable" then some "*bad"
  else if name = "keytable" then some "*bad"
  else none

/-- A secret store resolving the identifier `xyz` to an empty mapping. -/
def emptySecret : String → Option (List (String × String)) := fun sid =>
  if sid = "xyz" then some [] else none

/-! ## Helper lemmas -/

/-- The source's nested-join rendering of the signing table agrees with the
spec-side line-by-line recursion. -/
theorem pyJoin_pairs (l : List (String × String)) :
    pyJoin "\n" (l.map (fun row => pyJoin " " [row.1, row.2])) = lines_of_pairs l := by
  induction l with
  | nil => rfl
  | cons a as ih =>
    cases as with
    | nil => rfl
    | cons b bs =>
      simp only [List.map, pyJoin, lines_of_pairs] at ih ⊢
      rw [ih]

/-- `row_join` is Python's `" ".join`. -/
theorem row_join_eq (r : List String) : pyJoin " " r = row_join r := by
  induction r with
  | nil => rfl
  | cons x xs ih =>
    cases xs with
    | nil => rfl
    | cons y ys => simp only [pyJoin, row_join] at ih ⊢; rw [ih]

/-- The source's nested-join rendering of the key table agrees with the
spec-side line-by-line recursion. -/
theorem pyJoin_rows (l : List (List String)) :
    pyJoin "\n" (l.map (fun row => pyJoin " " row)) = lines_of_rows l := by
  induction l with
  | nil => rfl
  | cons a as ih =>
    cases as with
    | nil => simp only [List.map, pyJoin, lines_of_rows, row_join_eq]
    | cons b bs =>
      simp only [List.map, pyJoin, lines_of_rows] at ih ⊢
      rw [ih, row_join_eq]

/-- Deleting every `"secret:"` occurrence (CPython `replace`) equals
concatenating the fragments obtained by splitting on `"secret:"`. -/
theorem dropSecretFuel_eq_flatten (fuel : Nat) (l : List Char) :
    dropSecretFuel fuel l = (splitSecretFuel fuel l).flatten := by
  induction fuel generalizing l with
  | zero => simp [dropSecretFuel, splitSecretFuel]
  | succ fuel ih =>
    cases l with
    | nil => simp [dropSecretFuel, splitSecretFuel]
    | cons c cs =>
      simp only [dropSecretFuel, splitSecretFuel]
      by_cases h : leadsWith SECRET_TOKEN (c :: cs) = true
      · simp [h, ih]
      · simp only [h, if_neg, Bool.false_eq_true, not_false_eq_true, if_false]
        rw [ih cs]
        cases hs : splitSecretFuel fuel cs with
        | nil => simp [hs]
        | cons chunk rest => simp [hs]

/-- `(s ++ t).data` unfolds to the concatenation of the data lists. -/
theorem str_data_append (s t : String) : (s ++ t).data = s.data ++ t.data :=
  String.data_append s t

/-- The key-file path in list-of-characters form. -/
theorem keyfile_data (n : String) :
    (keyfile n).data = "/etc/dkimkeys/".data ++ n.data ++ ".private".data := by
  simp only [keyfile, OPENDKIM_KEYS_PATH, str_data_append]
  rfl

/-- Distinct key names give distinct key-file paths. -/
theorem keyfile_inj {m n : String} (h : keyfile m = keyfile n) : m = n := by
  have hd := congrArg String.data h
  rw [keyfile_data, keyfile_data] at hd
  exact String.ext (List.append_cancel_left (List.append_cancel_right hd))

/-- No key-file path is the signing-table path. -/
theorem keyfile_ne_signingtable (n : String) : keyfile n ≠ OPENDKIM_SIGNINGTABLE_PATH := by
  intro h
  have hd := congrArg (fun s => s.data.reverse) h
  simp only [keyfile_data] at hd
  rw [show OPENDKIM_SIGNINGTABLE_PATH.data = "/etc/dkimkeys/signingtable".data from rfl] at hd
  rw [List.append_assoc, List.reverse_append] at hd
  rw [show (n.data ++ ".private".data).reverse
        = ".private".data.reverse ++ n.data.reverse from List.reverse_append ..] at hd
  rw [show (".private".data).reverse = ['e', 't', 'a', 'v', 'i', 'r', 'p', '.'] from rfl] at hd
  rw [show ("/etc/dkimkeys/signingtable".data).reverse
        = ['e', 'l', 'b', 'a', 't', 'g', 'n', 'i', 'n', 'g', 'i', 's', '/', 's', 'y', 'e',
           'k', 'm', 'i', 'k', 'd', '/', 'c', 't', 'e', '/'] from rfl] at hd
  simp at hd

/-- No key-file path is the key-table path. -/
theorem keyfile_ne_keytable (n : String) : keyfile n ≠ OPENDKIM_KEYTABLE_PATH := by
  intro h
  have hd := congrArg (fun s => s.data.reverse) h
  simp only [keyfile_data] at hd
  rw [show OPENDKIM_KEYTABLE_PATH.data = "/etc/dkimkeys/keytable".data from rfl] at hd
  rw [List.append_assoc, List.reverse_append] at hd
  rw [show (n.data ++ ".private".data).reverse
        = ".private".data.reverse ++ n.data.reverse from List.reverse_append ..] at hd
  rw [show (".private".data).reverse = ['e', 't', 'a', 'v', 'i', 'r', 'p', '.'] from rfl] at hd
  rw [show ("/etc/dkimkeys/keytable".data).reverse
        = ['e', 'l', 'b', 'a', 't', 'y', 'e', 'k', '/', 's', 'y', 'e',
           'k', 'm', 'i', 'k', 'd', '/', 'c', 't', 'e', '/'] from rfl] at hd
  simp at hd

/-- No key-file path is the primary daemon config path. -/
theorem keyfile_ne_conf (n : String) : keyfile n ≠ OPENDKIM_CONFIG_PATH := by
  intro h
  have hd := congrArg String.data h
  rw [keyfile_data, List.append_assoc] at hd
  rw [show "/etc/dkimkeys/".data
        = ['/', 'e', 't', 'c', '/', 'd', 'k', 'i', 'm', 'k', 'e', 'y', 's', '/'] from rfl] at hd
  rw [show OPENDKIM_CONFIG_PATH.data
        = ['/', 'e', 't', 'c', '/', 'o', 'p', 'e', 'n', 'd', 'k', 'i', 'm', '.',
           'c', 'o', 'n', 'f'] from rfl] at hd
  simp at hd

/-- Once validation succeeded and at least one milter relation is present,
the cycle's events are exactly `appliedEvents`. -/
theorem reconcile_events_eq (inp : ReconcileInput) (cfg : OpenDKIMConfig)
    (hok : from_charm inp.parse inp.config inp.getSecret = .ok cfg)
    (hrel : inp.milterRelations ≠ 0) :
    (reconcile inp).events = appliedEvents inp cfg := by
  unfold reconcile
  rw [hok]
  simp only [hrel, if_false]
  cases validate_opendkim inp.testkey with
  | ok _ => rfl
  | error e =>
    simp only []
    split <;> rfl

/-- Boolean form of a path disequality. -/
theorem beq_false_of_ne {a b : String} (h : a ≠ b) : (a == b) = false :=
  beq_eq_false_iff_ne.mpr h

/-- The two error messages of `_parse_yaml_config_option` are distinct for
every option name. -/
theorem empty_msg_ne_wrong_msg (name : String) :
    ("empty " ++ name ++ " configuration") ≠ ("wrong " ++ name ++ " format") := by
  intro h
  have hd := congrArg String.data h
  rw [str_data_append, str_data_append, str_data_append, str_data_append] at hd
  rw [show ("empty ").data = ['e', 'm', 'p', 't', 'y', ' '] from rfl] at hd
  rw [show ("wrong ").data = ['w', 'r', 'o', 'n', 'g', ' '] from rfl] at hd
  simp at hd

theorem stp_beq_conf : (OPENDKIM_SIGNINGTABLE_PATH == OPENDKIM_CONFIG_PATH) = false := by decide

theorem ktp_beq_conf : (OPENDKIM_KEYTABLE_PATH == OPENDKIM_CONFIG_PATH) = false := by decide

theorem ktp_beq_stp : (OPENDKIM_KEYTABLE_PATH == OPENDKIM_SIGNINGTABLE_PATH) = false := by
  decide

theorem stp_beq_ktp : (OPENDKIM_SIGNINGTABLE_PATH == OPENDKIM_KEYTABLE_PATH) = false := by
  decide

theorem conf_beq_stp : (OPENDKIM_CONFIG_PATH == OPENDKIM_SIGNINGTABLE_PATH) = false := by
  decide

theorem conf_beq_ktp : (OPENDKIM_CONFIG_PATH == OPENDKIM_KEYTABLE_PATH) = false := by decide

/-- The writes of the apply phase landing on the primary config path:
exactly the drift-conditional primary config write. -/
theorem writesAt_conf (inp : ReconcileInput) (cfg : OpenDKIMConfig) :
    writesAt OPENDKIM_CONFIG_PATH (appliedEvents inp cfg) =
      (if inp.template cfg = read_text inp.fs OPENDKIM_CONFIG_PATH then []
       else [Event.write ⟨OPENDKIM_CONFIG_PATH, inp.template cfg, 0o644, OPENDKIM_USER⟩]) := by
  unfold writesAt appliedEvents
  rw [List.filter_append, List.filter_append, List.filter_append, List.filter_append]
  rw [List.filter_map]
  have h1 : (List.replicate inp.milterRelations
      (Event.relationSet "port" (toString OPENDKIM_MILTER_PORT))).filter
        (isWriteTo OPENDKIM_CONFIG_PATH) = [] :=
    List.filter_replicate_of_neg (by simp [isWriteTo])
  have h2 : cfg.private_keys.filter
      (isWriteTo OPENDKIM_CONFIG_PATH ∘
        fun kv => Event.write ⟨keyfile kv.1, kv.2, 0o600, OPENDKIM_USER⟩) = [] := by
    rw [List.filter_eq_nil_iff]
    intro kv _
    simp [isWriteTo, keyfile_ne_conf kv.1]
  rw [h1, h2]
  by_cases hd : inp.template cfg = read_text inp.fs OPENDKIM_CONFIG_PATH
  · rw [if_pos hd, if_pos hd]
    simp [List.filter_cons, isWriteTo, stp_beq_conf, ktp_beq_conf]
  · rw [if_neg hd, if_neg hd]
    simp [List.filter_cons, isWriteTo, stp_beq_conf, ktp_beq_conf]

/-- The writes of the apply phase landing on the signing-table path:
exactly the signing-table write. -/
theorem writesAt_signingtable (inp : ReconcileInput) (cfg : OpenDKIMConfig) :
    writesAt OPENDKIM_SIGNINGTABLE_PATH (appliedEvents inp cfg) =
      [Event.write ⟨OPENDKIM_SIGNINGTABLE_PATH,
        pyJoin "\n" (cfg.signingtable.map (fun row => pyJoin " " [row.1, row.2])),
        0o644, OPENDKIM_USER⟩] := by
  unfold writesAt appliedEvents
  rw [List.filter_append, List.filter_append, List.filter_append, List.filter_append]
  rw [List.filter_map]
  have h1 : (List.replicate inp.milterRelations
      (Event.relationSet "port" (toString OPENDKIM_MILTER_PORT))).filter
        (isWriteTo OPENDKIM_SIGNINGTABLE_PATH) = [] :=
    List.filter_replicate_of_neg (by simp [isWriteTo])
  have h2 : cfg.private_keys.filter
      (isWriteTo OPENDKIM_SIGNINGTABLE_PATH ∘
        fun kv => Event.write ⟨keyfile kv.1, kv.2, 0o600, OPENDKIM_USER⟩) = [] := by
    rw [List.filter_eq_nil_iff]
    intro kv _
    simp [isWriteTo, keyfile_ne_signingtable kv.1]
  rw [h1, h2]
  by_cases hd : inp.template cfg = read_text inp.fs OPENDKIM_CONFIG_PATH
  · rw [if_pos hd]
    simp [List.filter_cons, isWriteTo, ktp_beq_stp]
  · rw [if_neg hd]
    simp [List.filter_cons, isWriteTo, ktp_beq_stp, conf_beq_stp]

/-- The writes of the apply phase landing on the key-table path:
exactly the key-table write. -/
theorem writesAt_keytable (inp : ReconcileInput) (cfg : OpenDKIMConfig) :
    writesAt OPENDKIM_KEYTABLE_PATH (appliedEvents inp cfg) =
      [Event.write ⟨OPENDKIM_KEYTABLE_PATH,
        pyJoin "\n" (cfg.keytable.map (fun row => pyJoin " " row)),
        0o644, OPENDKIM_USER⟩] := by
  unfold writesAt appliedEvents
  rw [List.filter_append, List.filter_append, List.filter_append, List.filter_append]
  rw [List.filter_map]
  have h1 : (List.replicate inp.milterRelations
      (Event.relationSet "port" (toString OPENDKIM_MILTER_PORT))).filter
        (isWriteTo OPENDKIM_KEYTABLE_PATH) = [] :=
    List.filter_replicate_of_neg (by simp [isWriteTo])
  have h2 : cfg.private_keys.filter
      (isWriteTo OPENDKIM_KEYTABLE_PATH ∘
        fun kv => Event.write ⟨keyfile kv.1, kv.2, 0o600, OPENDKIM_USER⟩) = [] := by
    rw [List.filter_eq_nil_iff]
    intro kv _
    simp [isWriteTo, keyfile_ne_keytable kv.1]
  rw [h1, h2]
  by_cases hd : inp.template cfg = read_text inp.fs OPENDKIM_CONFIG_PATH
  · rw [if_pos hd]
    simp [List.filter_cons, isWriteTo, stp_beq_ktp]
  · rw [if_neg hd]
    simp [List.filter_cons, isWriteTo, stp_beq_ktp, conf_beq_ktp]

/-- In an association list with distinct keys, filtering for one present
key yields exactly its entry. -/
theorem filter_fst_eq_of_nodup (pk : List (String × String)) (n v : String)
    (hnd : (pk.map Prod.fst).Nodup) (hm : (n, v) ∈ pk) :
    pk.filter (fun kv => kv.1 == n) = [(n, v)] := by
  induction pk with
  | nil => cases hm
  | cons a rest ih =>
    rw [List.map_cons, List.nodup_cons] at hnd
    cases hm with
    | head =>
      have hrest : rest.filter (fun kv => kv.1 == n) = [] := by
        rw [List.filter_eq_nil_iff]
        intro kv hkv hb
        have hkn : kv.1 = n := by simpa using hb
        have hmem : kv.1 ∈ rest.map Prod.fst := List.mem_map_of_mem Prod.fst hkv
        rw [hkn] at hmem
        exact hnd.1 hmem
      simp [List.filter_cons, hrest]
    | tail _ hm2 =>
      have hne : (a.1 == n) = false := by
        rw [beq_eq_false_iff_ne]
        intro he
        apply hnd.1
        rw [he]
        exact List.mem_map_of_mem Prod.fst hm2
      simp only [List.filter_cons, hne, Bool.false_eq_true, if_false]
      exact ih hnd.2 hm2

/-- The writes of the apply phase landing on the key file of a key name
present in the mapping (keys distinct): exactly that key's write. -/
theorem writesAt_keyfile (inp : ReconcileInput) (cfg : OpenDKIMConfig) (n v : String)
    (hnd : (cfg.private_keys.map Prod.fst).Nodup) (hm : (n, v) ∈ cfg.private_keys) :
    writesAt (keyfile n) (appliedEvents inp cfg) =
      [Event.write ⟨keyfile n, v, 0o600, OPENDKIM_USER⟩] := by
  unfold writesAt appliedEvents
  rw [List.filter_append, List.filter_append, List.filter_append, List.filter_append]
  rw [List.filter_map]
  have h1 : (List.replicate inp.milterRelations
      (Event.relationSet "port" (toString OPENDKIM_MILTER_PORT))).filter
        (isWriteTo (keyfile n)) = [] :=
    List.filter_replicate_of_neg (by simp [isWriteTo])
  have h2 : cfg.private_keys.filter
      (isWriteTo (keyfile n) ∘
        fun kv => Event.write ⟨keyfile kv.1, kv.2, 0o600, OPENDKIM_USER⟩)
      = cfg.private_keys.filter (fun kv => kv.1 == n) := by
    apply List.filter_congr
    intro kv _
    have hiff : (keyfile kv.1 = keyfile n) ↔ (kv.1 = n) :=
      ⟨keyfile_inj, fun h => by rw [h]⟩
    simp [Function.comp, isWriteTo, hiff]
  rw [h1, h2, filter_fst_eq_of_nodup cfg.private_keys n v hnd hm]
  have h3 : (OPENDKIM_SIGNINGTABLE_PATH == keyfile n) = false :=
    beq_false_of_ne (Ne.symm (keyfile_ne_signingtable n))
  have h4 : (OPENDKIM_KEYTABLE_PATH == keyfile n) = false :=
    beq_false_of_ne (Ne.symm (keyfile_ne_keytable n))
  have h5 : (OPENDKIM_CONFIG_PATH == keyfile n) = false :=
    beq_false_of_ne (Ne.symm (keyfile_ne_conf n))
  by_cases hd : inp.template cfg = read_text inp.fs OPENDKIM_CONFIG_PATH
  · rw [if_pos hd]
    simp [List.filter_cons, isWriteTo, h3, h4]
  · rw [if_neg hd]
    simp [List.filter_cons, isWriteTo, h3, h4, h5]

/-! ## Claim theorems -/

/-- Claim C1: in every reconciliation cycle that reaches the diffing step,
the primary config file is written and a restart is issued if and only if
the newly rendered primary config differs from the previously persisted
content (absent file read as empty string), and a reload is issued
unconditionally afterwards (it is the last event of every such cycle). -/
theorem reconcile_drift_restart_reload (inp : ReconcileInput) (cfg : OpenDKIMConfig)
    (hok : from_charm inp.parse inp.config inp.getSecret = .ok cfg)
    (hrel : inp.milterRelations ≠ 0) :
    ((Event.restart "opendkim") ∈ (reconcile inp).events ↔
       inp.template cfg ≠ read_text inp.fs OPENDKIM_CONFIG_PATH) ∧
    (writesAt OPENDKIM_CONFIG_PATH (reconcile inp).events ≠ [] ↔
       inp.template cfg ≠ read_text inp.fs OPENDKIM_CONFIG_PATH) ∧
    (reconcile inp).events.getLast? = some (Event.reload "opendkim") := by
  rw [reconcile_events_eq inp cfg hok hrel]
  refine ⟨?_, ?_, ?_⟩
  · unfold appliedEvents
    by_cases hd : inp.template cfg = read_text inp.fs OPENDKIM_CONFIG_PATH
    · rw [if_pos hd]
      simp [hd]
    · rw [if_neg hd]
      simp [hd]
  · rw [writesAt_conf]
    by_cases hd : inp.template cfg = read_text inp.fs OPENDKIM_CONFIG_PATH
    · rw [if_pos hd]
      simp [hd]
    · rw [if_neg hd]
      simp [hd]
  · unfold appliedEvents
    exact List.getLast?_concat _

/-- Witness for C1: at the demo input (empty previous filesystem, so drift
holds) the hypotheses are discharged concretely. -/
theorem reconcile_drift_restart_reload_witness :
    ((Event.restart "opendkim") ∈ (reconcile demoInput).events ↔
       demoInput.template demoCfg ≠ read_text demoInput.fs OPENDKIM_CONFIG_PATH) ∧
    (writesAt OPENDKIM_CONFIG_PATH (reconcile demoInput).events ≠ [] ↔
       demoInput.template demoCfg ≠ read_text demoInput.fs OPENDKIM_CONFIG_PATH) ∧
    (reconcile demoInput).events.getLast? = some (Event.reload "opendkim") :=
  reconcile_drift_restart_reload demoInput demoCfg rfl (by decide)

/-- Claim C2: with a successfully validated configuration but zero milter
relation instances, the cycle performs no write at all (its event list is
empty, so the relation check precedes every artifact write) and ends
blocked on the missing relation. -/
theorem reconcile_no_relation_no_write (inp : ReconcileInput) (cfg : OpenDKIMConfig)
    (hok : from_charm inp.parse inp.config inp.getSecret = .ok cfg)
    (hrel : inp.milterRelations = 0) :
    reconcile inp = ⟨[], .status (.blocked "Missing milter relations")⟩ := by
  unfold reconcile
  rw [hok]
  simp [hrel]

/-- Witness for C2: the demo configuration with zero relations. -/
theorem reconcile_no_relation_no_write_witness :
    reconcile noRelationInput = ⟨[], .status (.blocked "Missing milter relations")⟩ :=
  reconcile_no_relation_no_write noRelationInput demoCfg rfl rfl

/-- Claim C6: in every cycle that reaches the apply step, the one write to
the signing-table path has as content the entries with their two fields
joined by exactly one space, one entry per line in input order, and the
one write to the key-table path follows the same join rule. -/
theorem reconcile_table_renders (inp : ReconcileInput) (cfg : OpenDKIMConfig)
    (hok : from_charm inp.parse inp.config inp.getSecret = .ok cfg)
    (hrel : inp.milterRelations ≠ 0) :
    writesAt OPENDKIM_SIGNINGTABLE_PATH (reconcile inp).events =
      [Event.write ⟨OPENDKIM_SIGNINGTABLE_PATH, lines_of_pairs cfg.signingtable,
        0o644, OPENDKIM_USER⟩] ∧
    writesAt OPENDKIM_KEYTABLE_PATH (reconcile inp).events =
      [Event.write ⟨OPENDKIM_KEYTABLE_PATH, lines_of_rows cfg.keytable,
        0o644, OPENDKIM_USER⟩] := by
  rw [reconcile_events_eq inp cfg hok hrel]
  rw [writesAt_signingtable, writesAt_keytable]
  rw [pyJoin_pairs, pyJoin_rows]
  exact ⟨rfl, rfl⟩

/-- Witness for C6: the demo input renders
`"*@example.com sel._domainkey.example.com"` into the signing table. -/
theorem reconcile_table_renders_witness :
    writesAt OPENDKIM_SIGNINGTABLE_PATH (reconcile demoInput).events =
      [Event.write ⟨OPENDKIM_SIGNINGTABLE_PATH, lines_of_pairs demoCfg.signingtable,
        0o644, OPENDKIM_USER⟩] ∧
    writesAt OPENDKIM_KEYTABLE_PATH (reconcile demoInput).events =
      [Event.write ⟨OPENDKIM_KEYTABLE_PATH, lines_of_rows demoCfg.keytable,
        0o644, OPENDKIM_USER⟩] :=
  reconcile_table_renders demoInput demoCfg rfl (by decide)

/-- Claim C7: reading the previous primary configuration never fails - an
absent file reads as the empty string - so drift detection over an absent
previous file compares the newly rendered content against `""`. -/
theorem read_text_absent_empty (inp : ReconcileInput) (cfg : OpenDKIMConfig)
    (path : String)
    (hok : from_charm inp.parse inp.config inp.getSecret = .ok cfg)
    (hrel : inp.milterRelations ≠ 0) :
    (inp.fs path = none → read_text inp.fs path = "") ∧
    (inp.fs OPENDKIM_CONFIG_PATH = none →
      ((Event.restart "opendkim") ∈ (reconcile inp).events ↔ inp.template cfg ≠ "")) := by
  constructor
  · intro habs
    unfold read_text
    rw [habs]
  · intro habs
    have hprev : read_text inp.fs OPENDKIM_CONFIG_PATH = "" := by
      unfold read_text
      rw [habs]
    rw [reconcile_events_eq inp cfg hok hrel]
    unfold appliedEvents
    rw [hprev]
    by_cases hd : inp.template cfg = ""
    · rw [if_pos hd]
      simp [hd]
    · rw [if_neg hd]
      simp [hd]

/-- Witness for C7: the demo filesystem holds no file at all. -/
theorem read_text_absent_empty_witness :
    (demoInput.fs "/uninvolved/path" = none →
      read_text demoInput.fs "/uninvolved/path" = "") ∧
    (demoInput.fs OPENDKIM_CONFIG_PATH = none →
      ((Event.restart "opendkim") ∈ (reconcile demoInput).events ↔
        demoInput.template demoCfg ≠ "")) :=
  read_text_absent_empty demoInput demoCfg "/uninvolved/path" rfl (by decide)

/-- Claim C8: for every entry `(name, pem)` of the private-key mapping
(whose keys, coming from a Python dict, are distinct), the apply step
writes exactly one file at the per-key path derived from the name, with
the PEM content, mode `0o600`, owned by the `opendkim` system user. -/
theorem reconcile_key_material (inp : ReconcileInput) (cfg : OpenDKIMConfig)
    (n v : String)
    (hok : from_charm inp.parse inp.config inp.getSecret = .ok cfg)
    (hrel : inp.milterRelations ≠ 0)
    (hnd : (cfg.private_keys.map Prod.fst).Nodup)
    (hm : (n, v) ∈ cfg.private_keys) :
    writesAt (keyfile n) (reconcile inp).events =
      [Event.write ⟨keyfile n, v, 0o600, OPENDKIM_USER⟩] := by
  rw [reconcile_events_eq inp cfg hok hrel]
  exact writesAt_keyfile inp cfg n v hnd hm

/-- Witness for C8: the demo key `k1` is written once at
`/etc/dkimkeys/k1.private` with content `PEMDATA` and mode `0o600`. -/
theorem reconcile_key_material_witness :
    writesAt (keyfile "k1") (reconcile demoInput).events =
      [Event.write ⟨keyfile "k1", "PEMDATA", 0o600, OPENDKIM_USER⟩] :=
  reconcile_key_material demoInput demoCfg "k1" "PEMDATA"
    rfl (by decide) (by decide) (by decide)

/-- Claim C3 (code bug): the `except` clause of `validate_opendkim` names
`(subprocess.CalledProcessError, TimeoutError)`, but an expired
`subprocess.run` timeout raises `subprocess.TimeoutExpired`, which is an
instance of neither caught class, so - contrary to the claim and to the
function's own docstring (`Raises ValueError: Raised if the check
failed`) - the timeout is not converted to the `ValueError` that
`_reconcile` catches and the cycle crashes instead of ending blocked.
A failing (non-zero exit) run, by contrast, is converted and ends
blocked, as the claim expects for timeouts too. -/
theorem validate_timeout_escapes :
    validate_opendkim RunOutcome.timeout =
      Except.error ⟨PyClass.timeoutExpired,
        "Command opendkim-testkey timed out after 100 seconds"⟩ ∧
    isinstance ⟨PyClass.timeoutExpired,
        "Command opendkim-testkey timed out after 100 seconds"⟩ PyClass.valueError = false ∧
    (reconcile timeoutInput).result =
      ReconcileResult.crash ⟨PyClass.timeoutExpired,
        "Command opendkim-testkey timed out after 100 seconds"⟩ ∧
    (reconcile failedTestkeyInput).result =
      ReconcileResult.status (.blocked "Wrong opendkim configuration. See logs") :=
  ⟨rfl, rfl, rfl, rfl⟩

/-- Claim C4: when the signing-table option fails to parse, the key-table
option fails to parse and the secret reference is missing (absent or
empty), validation fails with the single aggregated message joining all
three failures with `" - "` in that fixed order. -/
theorem from_charm_error_aggregation (parse : String → Option Yaml)
    (config : String → Option String)
    (getSecret : String → Option (List (String × String))) (e1 e2 : String)
    (h1 : _parse_yaml_config_option parse config "signingtable" = .error e1)
    (h2 : _parse_yaml_config_option parse config "keytable" = .error e2)
    (h3 : config "private-keys" = none ∨ config "private-keys" = some "") :
    from_charm parse config getSecret =
      .error (.invalid
        (e1 ++ " - " ++ e2 ++ " - " ++ "empty private-keys configuration")) := by
  unfold from_charm configErrors
  rw [h1, h2]
  cases h3 with
  | inl hN => rw [hN]; simp [errList, truthyStrOpt, pyJoin, String.append_assoc]
  | inr hE => rw [hE]; simp [errList, truthyStrOpt, pyJoin, String.append_assoc]

/-- Witness for C4: both tables malformed YAML, no secret reference. -/
theorem from_charm_error_aggregation_witness :
    from_charm demoParse malformedConfig demoSecret =
      .error (.invalid
        ("wrong signingtable format" ++ " - " ++ "wrong keytable format" ++ " - " ++
          "empty private-keys configuration")) :=
  from_charm_error_aggregation demoParse malformedConfig demoSecret
    "wrong signingtable format" "wrong keytable format" rfl rfl (Or.inl rfl)

/-- Counterexample to claim C5 as stated: a signing-table option of `"[]"`
and a key-table option of `"[]"` both parse (to the empty sequence), the
secret resolves, and `from_charm` succeeds - construction does not fail
with a validation error although both table sequences are empty. -/
theorem from_charm_accepts_empty_tables :
    from_charm demoParse emptyTablesConfig demoSecret =
      .ok { signingtable := [], keytable := [],
            private_keys := [("k1", "PEMDATA")] } := rfl

/-- Claim C5 as amended: validation rejects only absent or empty raw
option strings and a missing secret reference; it does not enforce
non-emptiness of the parsed collections.  Whenever both table options
parse to empty sequences and the secret resolves (to any mapping,
including the empty one), construction succeeds with those empty
collections. -/
theorem from_charm_empty_tables_ok (parse : String → Option Yaml)
    (config : String → Option String)
    (getSecret : String → Option (List (String × String)))
    (v1 v2 pkid : String) (pk : List (String × String))
    (h1 : config "signingtable" = some v1) (h1e : v1 ≠ "")
    (h1p : parse v1 = some (Yaml.list []))
    (h2 : config "keytable" = some v2) (h2e : v2 ≠ "")
    (h2p : parse v2 = some (Yaml.list []))
    (h3 : config "private-keys" = some pkid) (h3e : pkid ≠ "")
    (h4 : getSecret (pyReplaceSecret pkid) = some pk) :
    from_charm parse config getSecret =
      .ok { signingtable := [], keytable := [], private_keys := pk } := by
  have hst : _parse_yaml_config_option parse config "signingtable" = .ok (Yaml.list []) := by
    unfold _parse_yaml_config_option
    rw [h1]
    dsimp only
    rw [if_neg h1e, h1p]
  have hkt : _parse_yaml_config_option parse config "keytable" = .ok (Yaml.list []) := by
    unfold _parse_yaml_config_option
    rw [h2]
    dsimp only
    rw [if_neg h2e, h2p]
  unfold from_charm
  rw [hst, hkt, h3]
  dsimp only
  rw [if_neg h3e, h4]
  rfl

/-- Witness for the amended C5, with an empty secret mapping as well:
every collection of the constructed value is empty. -/
theorem from_charm_empty_tables_ok_witness :
    from_charm demoParse emptyTablesConfig emptySecret =
      .ok { signingtable := [], keytable := [], private_keys := [] } :=
  from_charm_empty_tables_ok demoParse emptyTablesConfig emptySecret
    "[]" "[]" "secret:xyz" []
    rfl (by decide) rfl rfl (by decide) rfl rfl (by decide) rfl

/-- Claim C9: the identifier handed to the secret resolver is the
configured reference with every `"secret:"` occurrence deleted - equal to
concatenating the fragments of the reference split on `"secret:"` - not
just a stripped leading prefix, as the interior occurrence in the closed
instance shows. -/
theorem secret_ref_replace_all :
    (∀ s : String, pyReplaceSecret s = deleteAllSecretSub s) ∧
    pyReplaceSecret "asecret:bsecret:c" = "abc" ∧
    (∀ (parse : String → Option Yaml) (config : String → Option String)
       (getSecret : String → Option (List (String × String))) (pkid : String),
      config "private-keys" = some pkid →
      from_charm parse config getSecret =
        from_charm parse config
          (fun sid => if sid = deleteAllSecretSub pkid then getSecret sid else none)) := by
  have hdel : ∀ s : String, pyReplaceSecret s = deleteAllSecretSub s := by
    intro s
    unfold pyReplaceSecret deleteAllSecretSub
    rw [dropSecretFuel_eq_flatten]
  refine ⟨hdel, rfl, ?_⟩
  intro parse config getSecret pkid h3
  unfold from_charm
  rw [h3]
  cases hst : _parse_yaml_config_option parse config "signingtable" with
  | error e => rfl
  | ok st =>
    cases hkt : _parse_yaml_config_option parse config "keytable" with
    | error e => rfl
    | ok kt =>
      dsimp only
      by_cases hpk : pkid = ""
      · rw [if_pos hpk, if_pos hpk]
      · rw [if_neg hpk, if_neg hpk]
        simp [hdel pkid]

/-- Witness for C9: at the demo reference `secret:xyz` the resolved
identifier is the deletion result, and the reconciler's validation step is
insensitive to the resolver's behaviour away from that identifier. -/
theorem secret_ref_replace_all_witness :
    pyReplaceSecret "secret:xyz" = deleteAllSecretSub "secret:xyz" ∧
    from_charm demoParse demoConfig demoSecret =
      from_charm demoParse demoConfig
        (fun sid => if sid = deleteAllSecretSub "secret:xyz" then demoSecret sid
                    else none) :=
  ⟨secret_ref_replace_all.1 "secret:xyz",
   secret_ref_replace_all.2.2 demoParse demoConfig demoSecret "secret:xyz" rfl⟩

/-- Claim C10: `_parse_yaml_config_option` treats an empty-string option
value identically to an absent one - both fail with
`empty <name> configuration` without the YAML parser being consulted (the
result is the same for every parser) - and the `wrong <name> format`
error can only arise for a present, non-empty value. -/
theorem parse_option_empty_vs_wrong (parse parse2 : String → Option Yaml)
    (config : String → Option String) (name : String) :
    ((config name = none ∨ config name = some "") →
      _parse_yaml_config_option parse config name =
          .error ("empty " ++ name ++ " configuration") ∧
        _parse_yaml_config_option parse config name =
          _parse_yaml_config_option parse2 config name) ∧
    (_parse_yaml_config_option parse config name =
        .error ("wrong " ++ name ++ " format") →
      ∃ v, config name = some v ∧ v ≠ "") := by
  constructor
  · intro h
    cases h with
    | inl hN =>
      unfold _parse_yaml_config_option
      rw [hN]
      exact ⟨rfl, rfl⟩
    | inr hE =>
      unfold _parse_yaml_config_option
      rw [hE]
      exact ⟨rfl, rfl⟩
  · intro hw
    cases hc : config name with
    | none =>
      unfold _parse_yaml_config_option at hw
      rw [hc] at hw
      exact absurd (Except.error.inj hw) (empty_msg_ne_wrong_msg name)
    | some v =>
      refine ⟨v, rfl, ?_⟩
      intro hv
      unfold _parse_yaml_config_option at hw
      rw [hc] at hw
      subst hv
      exact absurd (Except.error.inj hw) (empty_msg_ne_wrong_msg name)

/-- Witness for C10: an absent option fails with the `empty` message, and
the input that produced a `wrong signingtable format` error indeed held a
non-empty value. -/
theorem parse_option_empty_vs_wrong_witness :
    (_parse_yaml_config_option demoParse malformedConfig "private-keys" =
      .error ("empty " ++ "private-keys" ++ " configuration")) ∧
    (∃ v, malformedConfig "signingtable" = some v ∧ v ≠ "") :=
  ⟨((parse_option_empty_vs_wrong demoParse demoParse malformedConfig
      "private-keys").1 (Or.inl rfl)).1,
   (parse_option_empty_vs_wrong demoParse demoParse malformedConfig
      "signingtable").2 rfl⟩

end OpenDKIMCharm
